import Mathlib

/-!
Shallow embedding of the username-reservation workflow of
`ts/state/ducks/updates.ts` (the username duck): its Redux state, actions,
reducer, and the synchronous decision logic of the `reserveUsername`,
`confirmUsername` and `deleteUsername` thunk action creators, together with
the nickname-validation helper `getNicknameInvalidError`.

Conventions of the embedding:
* An `AbortController` is identified by a natural number; the reducer
  compares controllers by identity (`!==` in the source), which becomes
  equality of these identifiers.
* `undefined` / absent object fields become `Option.none` (structure fields
  with default `none`, mirroring the source's object literals that omit
  fields).
* The reducer can throw (reading `payload.ok` when `payload` is `undefined`
  in the `RESERVE_USERNAME_FULFILLED` branch), so the embedded reducer
  returns `Option`: `none` models the thrown exception, in which case the
  store keeps its previous state. `assertDev` does not throw in production
  and is modelled as a no-op.
* Minimum and maximum nickname lengths come from remote configuration via
  `getMinNickname` / `getMaxNickname` (not part of the excerpt); they are
  passed as explicit `Nat` parameters `minNickname` / `maxNickname`.
-/

namespace SignalUsername

/-- Modelled from the spec: `UsernameReservationState` is imported from
`ducks/usernameEnums`, which is not part of the excerpt. The spec (§3)
lists exactly the variants `Closed`, `Open`, `Reserving`, `Confirming`. -/
inductive UsernameReservationState where
  | Closed
  | Open
  | Reserving
  | Confirming
  deriving DecidableEq, Repr

/-- Modelled from the spec: `UsernameReservationError` is imported from
`ducks/usernameEnums`, which is not part of the excerpt. The spec (§3)
lists exactly these six error values. -/
inductive UsernameReservationError where
  | General
  | NotEnoughCharacters
  | TooManyCharacters
  | CheckCharacters
  | CheckStartingCharacter
  | UsernameNotAvailable
  deriving DecidableEq, Repr

/-- Modelled from the spec: `UsernameEditState` is imported from
`ducks/usernameEnums`, which is not part of the excerpt; the duck uses the
values `Editing` and `Deleting` (the "edit state" flag of spec §4.1). -/
inductive UsernameEditState where
  | Editing
  | Deleting
  deriving DecidableEq, Repr

/-- Modelled from the spec: `ReserveUsernameError` is imported from
`types/Username`, which is not part of the excerpt. The reducer's
`RESERVE_USERNAME_FULFILLED` branch handles `Unprocessable` and `Conflict`
and then calls `missingCaseError(error)` (whose argument must have type
`never`), so the enumeration has exactly these two members; the spec's
third domain-failure category ("other") is a rejected promise, not a
member of this enumeration. -/
inductive ReserveUsernameError where
  | Unprocessable
  | Conflict
  deriving DecidableEq, Repr

/-- Modelled from the spec: `UsernameReservationType` is imported from
`types/Username`, which is not part of the excerpt. Per spec §3 a
`Reservation` carries the candidate nickname and server-issued hold
metadata sufficient to confirm it; the reducer treats it as an opaque
value, so the exact fields are irrelevant to the claims. -/
structure UsernameReservationType where
  username : String
  previousUsername : Option String := none
  hash : List Nat := []
  deriving DecidableEq, Repr

/-- Modelled from the spec: `ReserveUsernameResultType` is imported from
`services/username`, which is not part of the excerpt. The reducer reads
`payload.ok`, `payload.error` and `payload.reservation`, so the result is
either a success carrying a reservation or a failure carrying a
`ReserveUsernameError`. -/
inductive ReserveUsernameResultType where
  | ok (reservation : UsernameReservationType)
  | err (error : ReserveUsernameError)
  deriving DecidableEq, Repr

/-- Modelled from the spec: the toast identifier dispatched on delete
failure (`ToastType.FailedToDeleteUsername` from `types/Toast`, not in the
excerpt; spec §6: "a notification sink accepting a typed toast event"). -/
inductive ToastType where
  | FailedToDeleteUsername
  deriving DecidableEq, Repr

/-- `UsernameReservationStateType` of `updates.ts`: the sub-state of the
reservation modal. Absent fields of the source's object literals are
`none` here (the defaults). -/
structure UsernameReservationStateType where
  state : UsernameReservationState
  reservation : Option UsernameReservationType := none
  error : Option UsernameReservationError := none
  abortController : Option Nat := none
  deriving DecidableEq, Repr

/-- `UsernameStateType` of `updates.ts`. -/
structure UsernameStateType where
  editState : UsernameEditState
  usernameReservation : UsernameReservationStateType
  deriving DecidableEq, Repr

/-- `UsernameActionType` of `updates.ts`. The three `PromiseAction`s
(`RESERVE_USERNAME`, `CONFIRM_USERNAME`, `DELETE_USERNAME`) are expanded
into their `_PENDING` / `_FULFILLED` / `_REJECTED` forms, which is what the
reducer actually receives. The reserve actions carry their `meta`
abort-controller; a fulfilled reserve payload is `none` exactly when the
underlying promise resolved `undefined` (aborted during the delay). -/
inductive UsernameAction where
  | setUsernameEditState (editState : UsernameEditState)
  | openUsernameReservationModal
  | closeUsernameReservationModal
  | setUsernameReservationError (error : Option UsernameReservationError)
  | reserveUsernamePending (abortController : Nat)
  | reserveUsernameFulfilled (abortController : Nat)
      (payload : Option ReserveUsernameResultType)
  | reserveUsernameRejected (abortController : Nat)
  | confirmUsernamePending
  | confirmUsernameFulfilled
  | confirmUsernameRejected
  | deleteUsernamePending
  | deleteUsernameFulfilled
  | deleteUsernameRejected
  deriving DecidableEq, Repr

/-- `getEmptyState` of the username duck. -/
def getEmptyState : UsernameStateType :=
  { editState := UsernameEditState.Editing,
    usernameReservation := { state := UsernameReservationState.Closed } }

/-- The username `reducer` of `updates.ts`. Returns `none` when the source
would throw: the `RESERVE_USERNAME_FULFILLED` branch reads `payload.ok`
after a non-throwing dev assertion, which is a `TypeError` when `payload`
is `undefined`. (`missingCaseError` is unreachable because
`ReserveUsernameError` has exactly the two handled members; the
`DELETE_USERNAME_REJECTED` branch only dev-asserts and returns the state.) -/
def reducer (state : UsernameStateType) (action : UsernameAction) :
    Option UsernameStateType :=
  let usernameReservation := state.usernameReservation
  match action with
  | .setUsernameEditState editState =>
      some { state with editState := editState }
  | .openUsernameReservationModal =>
      some { state with usernameReservation :=
        { state := UsernameReservationState.Open } }
  | .closeUsernameReservationModal =>
      some { state with usernameReservation :=
        { state := UsernameReservationState.Closed } }
  | .setUsernameReservationError error =>
      some { state with usernameReservation :=
        { usernameReservation with
            error := error,
            reservation := none } }
  | .reserveUsernamePending abortController =>
      -- the source also calls `usernameReservation.abortController?.abort()`
      -- here; that side effect on the old controller is modelled separately
      -- by `abortedByAction`
      some { state with usernameReservation :=
        { state := UsernameReservationState.Reserving,
          abortController := some abortController } }
  | .reserveUsernameFulfilled abortController payload =>
      if some abortController ≠ usernameReservation.abortController then
        -- new reservation is pending: discard
        some state
      else
        match payload with
        | none => none
        | some (.err ReserveUsernameError.Unprocessable) =>
            some { state with usernameReservation :=
              { state := UsernameReservationState.Open,
                error := some UsernameReservationError.CheckCharacters } }
        | some (.err ReserveUsernameError.Conflict) =>
            some { state with usernameReservation :=
              { state := UsernameReservationState.Open,
                error := some UsernameReservationError.UsernameNotAvailable } }
        | some (.ok reservation) =>
            some { state with usernameReservation :=
              { state := UsernameReservationState.Open,
                reservation := some reservation } }
  | .reserveUsernameRejected abortController =>
      if some abortController ≠ usernameReservation.abortController then
        -- new reservation is pending: discard
        some state
      else
        some { state with usernameReservation :=
          { state := UsernameReservationState.Open,
            error := some UsernameReservationError.General } }
  | .confirmUsernamePending =>
      some { state with usernameReservation :=
        { reservation := usernameReservation.reservation,
          state := UsernameReservationState.Confirming } }
  | .confirmUsernameFulfilled =>
      some { state with usernameReservation :=
        { state := UsernameReservationState.Closed } }
  | .confirmUsernameRejected =>
      some { state with usernameReservation :=
        { state := UsernameReservationState.Open,
          error := some UsernameReservationError.General } }
  | .deleteUsernamePending =>
      some { state with editState := UsernameEditState.Deleting }
  | .deleteUsernameFulfilled =>
      some { state with editState := UsernameEditState.Editing }
  | .deleteUsernameRejected =>
      some state

/-- The abort side effect of the reducer: the `RESERVE_USERNAME_PENDING`
branch calls `usernameReservation.abortController?.abort()` on the
previously stored controller before replacing it. -/
def abortedByAction (state : UsernameStateType) (action : UsernameAction) :
    List Nat :=
  match action with
  | .reserveUsernamePending _ => state.usernameReservation.abortController.toList
  | _ => []

/-- The character class `[0-9a-z_]` of the nickname body regex. -/
def isNicknameChar (c : Char) : Bool :=
  ('0' ≤ c && c ≤ '9') || ('a' ≤ c && c ≤ 'z') || c == '_'

/-- The character class `[a-z_]` of the nickname starting-character regex. -/
def isNicknameStartChar (c : Char) : Bool :=
  ('a' ≤ c && c ≤ 'z') || c == '_'

/-- `/^[0-9a-z_]+$/.test(nickname)`: the whole string is a non-empty run of
characters from `[0-9a-z_]`. -/
def matchesNicknameBody (nickname : String) : Bool :=
  !nickname.data.isEmpty && nickname.data.all isNicknameChar

/-- `/^[a-z_]/.test(nickname)`: the first character is in `[a-z_]`. -/
def matchesNicknameStart (nickname : String) : Bool :=
  match nickname.data with
  | [] => false
  | c :: _ => isNicknameStartChar c

/-- `getNicknameInvalidError` of `updates.ts`. The minimum and maximum
lengths (`getMinNickname()` / `getMaxNickname()`, remote configuration not
in the excerpt) are explicit parameters. -/
def getNicknameInvalidError (minNickname maxNickname : Nat)
    (nickname : String) : Option UsernameReservationError :=
  if nickname = "" then none
  else if nickname.length < minNickname then
    some UsernameReservationError.NotEnoughCharacters
  else if !matchesNicknameBody nickname then
    some UsernameReservationError.CheckCharacters
  else if !matchesNicknameStart nickname then
    some UsernameReservationError.CheckStartingCharacter
  else if nickname.length > maxNickname then
    some UsernameReservationError.TooManyCharacters
  else none

/-- Modelled from the spec: `isValidNickname` is imported from
`util/Username`, which is not part of the excerpt. Per the spec's
validation rules (§4.1) a nickname is valid when it is non-empty and none
of the validation errors applies. -/
def isValidNickname (minNickname maxNickname : Nat) (nickname : String) :
    Bool :=
  nickname != "" &&
    (getNicknameInvalidError minNickname maxNickname nickname).isNone

/-- What the synchronous body of the `reserveUsername` thunk dispatches:
nothing, a `SET_USERNAME_RESERVATION_ERROR` action, or the
`RESERVE_USERNAME` promise action carrying a fresh abort controller. -/
inductive ReserveThunkOutcome where
  | noop
  | dispatchSetError (error : UsernameReservationError)
  | dispatchReserve (abortController : Nat)
  deriving DecidableEq, Repr

/-- Whether the thunk started a reserve attempt (dispatched the
`RESERVE_USERNAME` promise action); only such an attempt can ever reach
the network. -/
def reserveThunkStartsAttempt : ReserveThunkOutcome → Bool
  | ReserveThunkOutcome.dispatchReserve _ => true
  | _ => false

/-- The synchronous body of the `reserveUsername` thunk of `updates.ts`:
`if (!nickname) return;`, then the `isValidNickname` guard dispatching the
validation error (or `General` in the unreachable dev-assert branch), else
dispatch of the `RESERVE_USERNAME` promise action with a fresh
`AbortController`. -/
def reserveUsernameSync (minNickname maxNickname : Nat) (nickname : String)
    (freshAbortController : Nat) : ReserveThunkOutcome :=
  if nickname = "" then ReserveThunkOutcome.noop
  else if !isValidNickname minNickname maxNickname nickname then
    match getNicknameInvalidError minNickname maxNickname nickname with
    | some error => ReserveThunkOutcome.dispatchSetError error
    | none =>
        ReserveThunkOutcome.dispatchSetError UsernameReservationError.General
  else ReserveThunkOutcome.dispatchReserve freshAbortController

/-- Observable outcome of the `run` closure of `reserveUsername`: whether
`doReserveUsername` was invoked, and the value the promise resolves with. -/
structure ReserveRunOutcome where
  networkCalled : Bool
  payload : Option ReserveUsernameResultType
  deriving DecidableEq, Repr

/-- Modelled from the spec: the `sleep` helper (`util/sleep`, not in the
excerpt) rejects when its abort signal fires during the delay. The `run`
closure of `reserveUsername` awaits `sleep(delay, abortSignal)` inside
`try`; if the signal aborted during the delay it returns `undefined`
without calling `doReserveUsername`, otherwise it calls `doReserveUsername`
and resolves with its result. -/
def reserveRun (abortedDuringDelay : Bool)
    (remoteResult : ReserveUsernameResultType) : ReserveRunOutcome :=
  if abortedDuringDelay then { networkCalled := false, payload := none }
  else { networkCalled := true, payload := some remoteResult }

/-- What the `confirmUsername` thunk dispatches. -/
inductive ConfirmThunkOutcome where
  | dispatchSetError (error : UsernameReservationError)
  | dispatchConfirm (reservation : UsernameReservationType)
  deriving DecidableEq, Repr

/-- Whether the outcome invokes the remote confirm operation
(`doConfirmUsername`). -/
def confirmCallsRemote : ConfirmThunkOutcome → Bool
  | ConfirmThunkOutcome.dispatchSetError _ => false
  | ConfirmThunkOutcome.dispatchConfirm _ => true

/-- The body of the `confirmUsername` thunk of `updates.ts`: it reads
`getState().username.usernameReservation.reservation`; when `undefined` it
dev-asserts and dispatches `setUsernameReservationError(General)` without
calling `doConfirmUsername`; otherwise it dispatches the `CONFIRM_USERNAME`
promise action whose payload is `doConfirmUsername(reservation)`. -/
def confirmUsernameSync (state : UsernameStateType) : ConfirmThunkOutcome :=
  match state.usernameReservation.reservation with
  | none =>
      ConfirmThunkOutcome.dispatchSetError UsernameReservationError.General
  | some reservation => ConfirmThunkOutcome.dispatchConfirm reservation

/-- What the synchronous body of the `deleteUsername` thunk dispatches. -/
inductive DeleteThunkOutcome where
  | noop
  | dispatchDelete (username : String)
  deriving DecidableEq, Repr

/-- `me.username ?? defaultUsername` of `deleteUsername` (JS nullish
coalescing: the override is used only when the session username is
`undefined`, not when it is the empty string). -/
def resolvedDeleteUsername (meUsername defaultUsername : Option String) :
    Option String :=
  match meUsername with
  | some u => some u
  | none => defaultUsername

/-- The synchronous body of the `deleteUsername` thunk of `updates.ts`:
`const username = me.username ?? defaultUsername; if (!username) return;`
(the empty string is falsy), else dispatch of the `DELETE_USERNAME`
promise action. -/
def deleteUsernameSync (meUsername defaultUsername : Option String) :
    DeleteThunkOutcome :=
  match resolvedDeleteUsername meUsername defaultUsername with
  | none => DeleteThunkOutcome.noop
  | some u =>
      if u = "" then DeleteThunkOutcome.noop
      else DeleteThunkOutcome.dispatchDelete u

/-- Observable outcome of the `run` closure of `deleteUsername`: the toast
it dispatches (if any) and whether the returned promise rejects. -/
structure DeleteRunOutcome where
  toast : Option ToastType
  rejects : Bool
  deriving DecidableEq, Repr

/-- The `run` closure of `deleteUsername`: it awaits
`doDeleteUsername(username)` inside `try`; on throw it dispatches
`showToast(ToastType.FailedToDeleteUsername)` and swallows the error, so
the promise it returns always fulfills. -/
def deleteRun (remoteDeleteFails : Bool) : DeleteRunOutcome :=
  if remoteDeleteFails then
    { toast := some ToastType.FailedToDeleteUsername, rejects := false }
  else
    { toast := none, rejects := false }

/-- Modelled from the spec: the promise-action middleware (`state/util`,
not in the excerpt) dispatches the `_REJECTED` action exactly when the
payload promise rejects, and the `_FULFILLED` action otherwise; this is
its completion action for `DELETE_USERNAME`. -/
def deleteCompletionAction (remoteDeleteFails : Bool) : UsernameAction :=
  if (deleteRun remoteDeleteFails).rejects then
    UsernameAction.deleteUsernameRejected
  else
    UsernameAction.deleteUsernameFulfilled

/-- States reachable from the empty state through non-throwing reducer
steps. -/
inductive Reachable : UsernameStateType → Prop where
  | empty : Reachable getEmptyState
  | step {s s' : UsernameStateType} (a : UsernameAction) :
      Reachable s → reducer s a = some s' → Reachable s'

-- Helper lemmas

lemma matchesNicknameBody_eq_true_iff (nickname : String) :
    matchesNicknameBody nickname = true ↔
      nickname.data ≠ [] ∧ ∀ c ∈ nickname.data, isNicknameChar c := by
  simp [matchesNicknameBody, List.isEmpty_iff, List.all_eq_true]

lemma data_ne_nil_of_ne_empty {nickname : String} (h : nickname ≠ "") :
    nickname.data ≠ [] := by
  intro hd
  exact h (String.ext (hd.trans rfl))

lemma reducer_preserves_exclusive {s s' : UsernameStateType}
    {a : UsernameAction} (hstep : reducer s a = some s')
    (hs : s.usernameReservation.reservation = none ∨
      s.usernameReservation.error = none) :
    s'.usernameReservation.reservation = none ∨
      s'.usernameReservation.error = none := by
  cases a with
  | setUsernameEditState e =>
      simp [reducer] at hstep
      subst hstep
      simpa using hs
  | openUsernameReservationModal =>
      simp [reducer] at hstep
      subst hstep
      simp
  | closeUsernameReservationModal =>
      simp [reducer] at hstep
      subst hstep
      simp
  | setUsernameReservationError e =>
      simp [reducer] at hstep
      subst hstep
      simp
  | reserveUsernamePending ac =>
      simp [reducer] at hstep
      subst hstep
      simp
  | reserveUsernameFulfilled ac payload =>
      simp only [reducer] at hstep
      split at hstep
      · rw [Option.some_inj] at hstep
        subst hstep
        exact hs
      · match payload with
        | none => simp at hstep
        | some (.ok r) =>
            rw [Option.some_inj] at hstep
            subst hstep
            simp
        | some (.err ReserveUsernameError.Unprocessable) =>
            rw [Option.some_inj] at hstep
            subst hstep
            simp
        | some (.err ReserveUsernameError.Conflict) =>
            rw [Option.some_inj] at hstep
            subst hstep
            simp
  | reserveUsernameRejected ac =>
      simp only [reducer] at hstep
      split at hstep
      · rw [Option.some_inj] at hstep
        subst hstep
        exact hs
      · rw [Option.some_inj] at hstep
        subst hstep
        simp
  | confirmUsernamePending =>
      simp [reducer] at hstep
      subst hstep
      simp
  | confirmUsernameFulfilled =>
      simp [reducer] at hstep
      subst hstep
      simp
  | confirmUsernameRejected =>
      simp [reducer] at hstep
      subst hstep
      simp
  | deleteUsernamePending =>
      simp [reducer] at hstep
      subst hstep
      simpa using hs
  | deleteUsernameFulfilled =>
      simp [reducer] at hstep
      subst hstep
      simpa using hs
  | deleteUsernameRejected =>
      simp [reducer] at hstep
      subst hstep
      exact hs

-- Claim theorems

/-- C1: a reserve completion (fulfilled or rejected) whose attached
abort controller is not the one currently stored in the
`usernameReservation` state leaves the state entirely unchanged. -/
theorem stale_reserve_completion_is_discarded
    (s : UsernameStateType) (ac : Nat)
    (payload : Option ReserveUsernameResultType)
    (h : some ac ≠ s.usernameReservation.abortController) :
    reducer s (.reserveUsernameFulfilled ac payload) = some s ∧
    reducer s (.reserveUsernameRejected ac) = some s := by
  constructor <;> simp [reducer, h]

/-- Witness for C1: a concrete stale completion (the empty state stores no
controller) is a no-op for both the fulfilled and the rejected action. -/
theorem stale_reserve_completion_is_discarded_witness :
    ((some 0 : Option Nat) ≠ getEmptyState.usernameReservation.abortController) ∧
    (reducer getEmptyState (.reserveUsernameFulfilled 0 none) =
        some getEmptyState ∧
      reducer getEmptyState (.reserveUsernameRejected 0) = some getEmptyState) :=
  ⟨by decide,
    stale_reserve_completion_is_discarded getEmptyState 0 none (by decide)⟩

/-- C2: a reserve completion whose controller matches the stored one maps
its outcome as the source's `RESERVE_USERNAME_FULFILLED` /
`RESERVE_USERNAME_REJECTED` branches do: success yields `Open` carrying the
reservation and no error; an `Unprocessable` domain failure yields `Open`
with `CheckCharacters`; a `Conflict` domain failure yields `Open` with
`UsernameNotAvailable`; a rejected promise (any other failure) yields
`Open` with `General`. -/
theorem matching_reserve_completion_outcomes
    (s : UsernameStateType) (ac : Nat) (res : UsernameReservationType)
    (h : some ac = s.usernameReservation.abortController) :
    reducer s (.reserveUsernameFulfilled ac (some (.ok res))) =
      some { s with usernameReservation :=
        { state := UsernameReservationState.Open,
          reservation := some res } } ∧
    reducer s (.reserveUsernameFulfilled ac
        (some (.err ReserveUsernameError.Unprocessable))) =
      some { s with usernameReservation :=
        { state := UsernameReservationState.Open,
          error := some UsernameReservationError.CheckCharacters } } ∧
    reducer s (.reserveUsernameFulfilled ac
        (some (.err ReserveUsernameError.Conflict))) =
      some { s with usernameReservation :=
        { state := UsernameReservationState.Open,
          error := some UsernameReservationError.UsernameNotAvailable } } ∧
    reducer s (.reserveUsernameRejected ac) =
      some { s with usernameReservation :=
        { state := UsernameReservationState.Open,
          error := some UsernameReservationError.General } } := by
  refine ⟨?_, ?_, ?_, ?_⟩ <;> simp [reducer, ← h]

/-- Witness for C2: from a concrete `Reserving` state holding controller 0,
a successful completion stores the reservation. -/
theorem matching_reserve_completion_outcomes_witness :
    reducer
        { editState := UsernameEditState.Editing,
          usernameReservation :=
            { state := UsernameReservationState.Reserving,
              abortController := some 0 } }
        (.reserveUsernameFulfilled 0
          (some (.ok { username := "alice" }))) =
      some
        { editState := UsernameEditState.Editing,
          usernameReservation :=
            { state := UsernameReservationState.Open,
              reservation := some { username := "alice" } } } :=
  (matching_reserve_completion_outcomes
    { editState := UsernameEditState.Editing,
      usernameReservation :=
        { state := UsernameReservationState.Reserving,
          abortController := some 0 } }
    0 { username := "alice" } rfl).1

/-- C3: for every non-empty nickname, `getNicknameInvalidError` returns the
first applicable error in the exact precedence too-short, character-set,
starting-character, too-long, none; in particular the character-set check
runs before the too-long check, so an over-length nickname containing an
illegal character yields `CheckCharacters`. -/
theorem nickname_validation_precedence
    (minNickname maxNickname : Nat) (nickname : String)
    (hne : nickname ≠ "") :
    (nickname.length < minNickname →
      getNicknameInvalidError minNickname maxNickname nickname =
        some UsernameReservationError.NotEnoughCharacters) ∧
    (minNickname ≤ nickname.length →
      (∃ c ∈ nickname.data, ¬ isNicknameChar c) →
      getNicknameInvalidError minNickname maxNickname nickname =
        some UsernameReservationError.CheckCharacters) ∧
    (minNickname ≤ nickname.length →
      (∀ c ∈ nickname.data, isNicknameChar c) →
      ¬ matchesNicknameStart nickname →
      getNicknameInvalidError minNickname maxNickname nickname =
        some UsernameReservationError.CheckStartingCharacter) ∧
    (minNickname ≤ nickname.length →
      (∀ c ∈ nickname.data, isNicknameChar c) →
      matchesNicknameStart nickname →
      nickname.length > maxNickname →
      getNicknameInvalidError minNickname maxNickname nickname =
        some UsernameReservationError.TooManyCharacters) ∧
    (minNickname ≤ nickname.length →
      (∀ c ∈ nickname.data, isNicknameChar c) →
      matchesNicknameStart nickname →
      nickname.length ≤ maxNickname →
      getNicknameInvalidError minNickname maxNickname nickname = none) := by
  have hdata : nickname.data ≠ [] := data_ne_nil_of_ne_empty hne
  refine ⟨?_, ?_, ?_, ?_, ?_⟩
  · intro hlen
    simp [getNicknameInvalidError, hne, hlen]
  · intro hlen hbad
    have hbody : matchesNicknameBody nickname = false := by
      rcases hbad with ⟨c, hc, hcbad⟩
      rcases Bool.eq_false_or_eq_true (matchesNicknameBody nickname) with h | h
      · exact absurd ((matchesNicknameBody_eq_true_iff nickname).mp h |>.2 c hc)
          hcbad
      · exact h
    simp [getNicknameInvalidError, hne, hbody, Nat.not_lt.mpr hlen]
  · intro hlen hgood hstart
    have hbody : matchesNicknameBody nickname = true :=
      (matchesNicknameBody_eq_true_iff nickname).mpr ⟨hdata, hgood⟩
    simp [getNicknameInvalidError, hne, hbody, Nat.not_lt.mpr hlen, hstart]
  · intro hlen hgood hstart hmax
    have hbody : matchesNicknameBody nickname = true :=
      (matchesNicknameBody_eq_true_iff nickname).mpr ⟨hdata, hgood⟩
    simp [getNicknameInvalidError, hne, hbody, Nat.not_lt.mpr hlen, hstart,
      hmax]
  · intro hlen hgood hstart hmax
    have hbody : matchesNicknameBody nickname = true :=
      (matchesNicknameBody_eq_true_iff nickname).mpr ⟨hdata, hgood⟩
    simp [getNicknameInvalidError, hne, hbody, Nat.not_lt.mpr hlen, hstart,
      Nat.not_lt.mpr hmax]

/-- Witness for C3: with minimum 3 and maximum 5, the over-length nickname
`"abcdef!"` containing the illegal character `'!'` yields `CheckCharacters`,
not `TooManyCharacters`. -/
theorem nickname_validation_precedence_witness :
    getNicknameInvalidError 3 5 "abcdef!" =
      some UsernameReservationError.CheckCharacters :=
  (nickname_validation_precedence 3 5 "abcdef!" (by decide)).2.1 (by decide)
    ⟨'!', by decide, by decide⟩

/-- C4: an attempt whose controller is aborted during the debounce delay
(which is what a superseding `RESERVE_USERNAME_PENDING` does to the stored
controller) never calls `doReserveUsername` and its own completion leaves
the superseded state unchanged. -/
theorem aborted_reserve_attempt_is_inert
    (s : UsernameStateType) (ac₁ ac₂ : Nat)
    (r : ReserveUsernameResultType)
    (hstored : s.usernameReservation.abortController = some ac₁)
    (hne : ac₁ ≠ ac₂) :
    ac₁ ∈ abortedByAction s (.reserveUsernamePending ac₂) ∧
    (reserveRun true r).networkCalled = false ∧
    ∀ s', reducer s (.reserveUsernamePending ac₂) = some s' →
      reducer s' (.reserveUsernameFulfilled ac₁ (reserveRun true r).payload) =
        some s' := by
  refine ⟨?_, rfl, ?_⟩
  · simp [abortedByAction, hstored]
  · intro s' hs'
    simp [reducer] at hs'
    subst hs'
    simp [reducer, reserveRun, hne]

/-- Witness for C4: attempt 0 is aborted by superseding attempt 1; its late
completion is a no-op on the superseded state. -/
theorem aborted_reserve_attempt_is_inert_witness :
    reducer
        { editState := UsernameEditState.Editing,
          usernameReservation :=
            { state := UsernameReservationState.Reserving,
              abortController := some 1 } }
        (.reserveUsernameFulfilled 0
          (reserveRun true (.err ReserveUsernameError.Conflict)).payload) =
      some
        { editState := UsernameEditState.Editing,
          usernameReservation :=
            { state := UsernameReservationState.Reserving,
              abortController := some 1 } } :=
  (aborted_reserve_attempt_is_inert
    { editState := UsernameEditState.Editing,
      usernameReservation :=
        { state := UsernameReservationState.Reserving,
          abortController := some 0 } }
    0 1 (.err ReserveUsernameError.Conflict) rfl (by decide)).2.2 _ rfl

/-- C5: `reserveUsername` with an empty nickname dispatches nothing (no
state change, no error, no attempt); with a non-empty nickname that fails
validation it dispatches exactly the corresponding validation error, and in
neither case does it start a reserve attempt (so the network is never
contacted). -/
theorem reserve_thunk_validation_guard
    (minNickname maxNickname : Nat) (nickname : String) (fresh : Nat) :
    (nickname = "" →
      reserveUsernameSync minNickname maxNickname nickname fresh =
        ReserveThunkOutcome.noop) ∧
    (∀ e, nickname ≠ "" →
      getNicknameInvalidError minNickname maxNickname nickname = some e →
      reserveUsernameSync minNickname maxNickname nickname fresh =
        ReserveThunkOutcome.dispatchSetError e) ∧
    reserveThunkStartsAttempt ReserveThunkOutcome.noop = false ∧
    (∀ e, reserveThunkStartsAttempt
      (ReserveThunkOutcome.dispatchSetError e) = false) := by
  refine ⟨?_, ?_, rfl, fun _ => rfl⟩
  · intro h
    simp [reserveUsernameSync, h]
  · intro e hne hsome
    have hval : isValidNickname minNickname maxNickname nickname = false := by
      simp [isValidNickname, hsome]
    simp [reserveUsernameSync, hne, hval, hsome]

/-- Witness for C5: with minimum 3, the too-short nickname `"ab"` makes the
thunk dispatch `NotEnoughCharacters` without starting an attempt. -/
theorem reserve_thunk_validation_guard_witness :
    reserveUsernameSync 3 32 "ab" 0 =
      ReserveThunkOutcome.dispatchSetError
        UsernameReservationError.NotEnoughCharacters :=
  (reserve_thunk_validation_guard 3 32 "ab" 0).2.1
    UsernameReservationError.NotEnoughCharacters (by decide) (by decide)

/-- C6: `confirmUsername` with no stored reservation dispatches error
`General` and does not invoke the remote confirm operation; the remote
confirm operation is invoked exactly when a reservation is present. -/
theorem confirm_requires_reservation (s : UsernameStateType) :
    (s.usernameReservation.reservation = none →
      confirmUsernameSync s =
        ConfirmThunkOutcome.dispatchSetError
          UsernameReservationError.General ∧
      confirmCallsRemote (confirmUsernameSync s) = false) ∧
    (∀ r, s.usernameReservation.reservation = some r →
      confirmUsernameSync s = ConfirmThunkOutcome.dispatchConfirm r ∧
      confirmCallsRemote (confirmUsernameSync s) = true) := by
  constructor
  · intro h
    simp [confirmUsernameSync, h, confirmCallsRemote]
  · intro r h
    simp [confirmUsernameSync, h, confirmCallsRemote]

/-- Witness for C6: the empty state stores no reservation, so `confirm()`
dispatches `General` and makes no remote call. -/
theorem confirm_requires_reservation_witness :
    confirmUsernameSync getEmptyState =
      ConfirmThunkOutcome.dispatchSetError UsernameReservationError.General ∧
    confirmCallsRemote (confirmUsernameSync getEmptyState) = false :=
  (confirm_requires_reservation getEmptyState).1 rfl

/-- C7: a confirm completion that reached the network transitions as the
source's `CONFIRM_USERNAME_FULFILLED` / `CONFIRM_USERNAME_REJECTED`
branches do: success yields `Closed` with no error and no reservation;
failure yields `Open` with error `General`. -/
theorem confirm_completion_outcomes (s : UsernameStateType) :
    reducer s .confirmUsernameFulfilled =
      some { s with usernameReservation :=
        { state := UsernameReservationState.Closed,
          reservation := none,
          error := none } } ∧
    reducer s .confirmUsernameRejected =
      some { s with usernameReservation :=
        { state := UsernameReservationState.Open,
          reservation := none,
          error := some UsernameReservationError.General } } :=
  ⟨rfl, rfl⟩

/-- C8: in every state reachable from the empty state the reservation and
error fields are never both set; moreover `SET_USERNAME_RESERVATION_ERROR`
always clears the stored reservation, and a matched reserve completion
yields either a populated reservation with no error or an error with no
reservation. -/
theorem reachable_reservation_error_exclusive
    (s t : UsernameStateType) (h : Reachable s)
    (e : Option UsernameReservationError) (ac : Nat)
    (payload : Option ReserveUsernameResultType) :
    (s.usernameReservation.reservation = none ∨
      s.usernameReservation.error = none) ∧
    (reducer s (.setUsernameReservationError e) = some t →
      t.usernameReservation.reservation = none) ∧
    (some ac = s.usernameReservation.abortController →
      reducer s (.reserveUsernameFulfilled ac payload) = some t →
      (t.usernameReservation.reservation.isSome ∧
          t.usernameReservation.error = none) ∨
        (t.usernameReservation.error.isSome ∧
          t.usernameReservation.reservation = none)) := by
  refine ⟨?_, ?_, ?_⟩
  · induction h with
    | empty => simp [getEmptyState]
    | step a hr hstep ih => exact reducer_preserves_exclusive hstep ih
  · intro ht
    simp [reducer] at ht
    subst ht
    simp
  · intro hac ht
    simp only [reducer, ← hac] at ht
    simp only [ne_eq, not_true_eq_false, if_false] at ht
    match payload with
    | none => simp at ht
    | some (.ok r) =>
        rw [Option.some_inj] at ht
        subst ht
        simp
    | some (.err ReserveUsernameError.Unprocessable) =>
        rw [Option.some_inj] at ht
        subst ht
        simp
    | some (.err ReserveUsernameError.Conflict) =>
        rw [Option.some_inj] at ht
        subst ht
        simp

/-- Witness for C8: the empty state is reachable and satisfies the
exclusivity of reservation and error. -/
theorem reachable_reservation_error_exclusive_witness :
    getEmptyState.usernameReservation.reservation = none ∨
    getEmptyState.usernameReservation.error = none :=
  (reachable_reservation_error_exclusive getEmptyState getEmptyState
    Reachable.empty none 0 none).1

/-- C9: `deleteUsername` is a no-op when the resolved username (session
username, falling back to the testing override) is absent or empty; its
pending and fulfilled completions change only `editState` (leaving the
`usernameReservation` sub-state untouched), its rejected branch returns the
state unchanged, and a remote failure dispatches the
`FailedToDeleteUsername` toast. -/
theorem delete_username_scoped_effects
    (meUsername defaultUsername : Option String) (s : UsernameStateType)
    (habsent : resolvedDeleteUsername meUsername defaultUsername = none ∨
      resolvedDeleteUsername meUsername defaultUsername = some "") :
    deleteUsernameSync meUsername defaultUsername = DeleteThunkOutcome.noop ∧
    reducer s UsernameAction.deleteUsernamePending =
      some { s with editState := UsernameEditState.Deleting } ∧
    reducer s UsernameAction.deleteUsernameFulfilled =
      some { s with editState := UsernameEditState.Editing } ∧
    reducer s UsernameAction.deleteUsernameRejected = some s ∧
    (deleteRun true).toast = some ToastType.FailedToDeleteUsername := by
  refine ⟨?_, rfl, rfl, rfl, rfl⟩
  rcases habsent with h | h <;> simp [deleteUsernameSync, h]

/-- Witness for C9: with no session username and no override the thunk is a
no-op, and the delete completions only touch `editState` of the empty
state. -/
theorem delete_username_scoped_effects_witness :
    deleteUsernameSync none none = DeleteThunkOutcome.noop ∧
    reducer getEmptyState UsernameAction.deleteUsernamePending =
      some { getEmptyState with editState := UsernameEditState.Deleting } ∧
    reducer getEmptyState UsernameAction.deleteUsernameFulfilled =
      some { getEmptyState with editState := UsernameEditState.Editing } ∧
    reducer getEmptyState UsernameAction.deleteUsernameRejected =
      some getEmptyState ∧
    (deleteRun true).toast = some ToastType.FailedToDeleteUsername :=
  delete_username_scoped_effects none none getEmptyState (Or.inl rfl)

/-- C10: the promise dispatched as the `DELETE_USERNAME` payload never
rejects (every remote-delete error is caught and turned into a toast), so
the middleware's completion action is always `DELETE_USERNAME_FULFILLED`
and the `DELETE_USERNAME_REJECTED` reducer branch is unreachable (its
dev assertion holds vacuously; were it reached, it would return the state
unchanged). -/
theorem delete_promise_never_rejects
    (remoteDeleteFails : Bool) (s : UsernameStateType) :
    (deleteRun remoteDeleteFails).rejects = false ∧
    deleteCompletionAction remoteDeleteFails =
      UsernameAction.deleteUsernameFulfilled ∧
    reducer s UsernameAction.deleteUsernameRejected = some s := by
  cases remoteDeleteFails <;> exact ⟨rfl, rfl, rfl⟩

end SignalUsername
